import Mathlib

/-!
# Power-analysis engine for A/B experiment feasibility — verification

Shallow embedding of the statistical power-analysis pipeline
(`design/power_analysis.py` and `design/bigquery_utils.py`):
sample-size calculators, the duration planner, the calendar
start-date search and the feasibility orchestrator, together with
proofs and refutations of the specification claims.

Conventions used throughout:
* Python floats are idealised as real numbers; the inverse normal CDF
  `scipy.stats.norm.ppf` has no closed form, so the two critical values
  `z_alpha`, `z_beta` are passed as explicit real parameters.
* Python `int(x)` truncates toward zero and is modelled by `pyTrunc`;
  `math.ceil` / `np.ceil` by `Int.ceil`;
  `datetime` values by proleptic-Gregorian day numbers (days since
  1970-01-01).
* Functions that can raise are modelled in `Except PAError`.
-/

namespace Flit

/-- Python `int(x)`: truncation toward zero. -/
noncomputable def pyTrunc (x : ℝ) : ℤ :=
  if 0 ≤ x then ⌊x⌋ else ⌈x⌉

/-- Errors the power-analysis code can raise: `ZeroDivisionError` in
`calculate_experiment_duration` and `ValueError` for an unsupported test
type in `calculate_test_sample_size`. -/
inductive PAError
  | divisionInvalid
  | invalidTestType
deriving DecidableEq

/-- The three feasibility verdicts of `assess_experiment_feasibility`. -/
inductive FeasibilityStatus
  | FEASIBLE
  | MARGINAL
  | NOT_FEASIBLE
deriving DecidableEq

/-- The reason strings `assess_experiment_feasibility` appends to
`feasibility_reasons`, abstracted to an enumeration (the Python code
interpolates the concrete numbers into the message text). -/
inductive Reason
  | extendedToMinimum
  | exceedsMaximum
  | lowDailyTraffic
  | assumptionsViolated
deriving DecidableEq

/-! ## Calendar arithmetic

`power_analysis.py` works with `datetime.datetime`; we embed dates as
integer day numbers counted from 1970-01-01 in the proleptic Gregorian
calendar, via the standard days-from-civil conversion. -/

/-- Day number (days since 1970-01-01) of the Gregorian date y-m-d. -/
def daysFromCivil (y m d : ℤ) : ℤ :=
  let y1 : ℤ := if m ≤ 2 then y - 1 else y
  let era : ℤ := Int.fdiv y1 400
  let yoe : ℤ := y1 - era * 400
  let mp : ℤ := (m + 9) % 12
  let doy : ℤ := Int.fdiv (153 * mp + 2) 5 + d - 1
  let doe : ℤ := yoe * 365 + Int.fdiv yoe 4 - Int.fdiv yoe 100 + doy
  era * 146097 + doe - 719468

/-- `datetime.weekday()`: Monday = 0 … Sunday = 6.
1970-01-01 (day number 0) was a Thursday, i.e. weekday 3. -/
def pyWeekday (n : ℤ) : ℤ := (n + 3) % 7

/-- Start-candidate initialisation in `suggest_optimal_start_dates`:
`days_until_monday = (7 - weekday) % 7`, bumped to 7 when the reference
date is itself a Monday, then added to the reference date. -/
def nextMonday (n : ℤ) : ℤ :=
  let daysUntilMonday : ℤ := (7 - pyWeekday n) % 7
  n + (if daysUntilMonday = 0 then 7 else daysUntilMonday)

/-- The `avoid_periods` list built in `suggest_optimal_start_dates` for a
reference year `ry`: the six seasonal periods of the reference year plus
next year's Thanksgiving/Black-Friday, Christmas/New-Year and Valentine's
periods (the code does not re-anchor the other three to the next year). -/
def avoidPeriods (ry : ℤ) : List (ℤ × ℤ) :=
  [ (daysFromCivil ry 11 20, daysFromCivil ry 12 5),
    (daysFromCivil ry 12 10, daysFromCivil (ry + 1) 1 10),
    (daysFromCivil ry 2 8, daysFromCivil ry 2 18),
    (daysFromCivil ry 8 15, daysFromCivil ry 9 15),
    (daysFromCivil ry 6 15, daysFromCivil ry 8 15),
    (daysFromCivil ry 3 20, daysFromCivil ry 4 10),
    (daysFromCivil (ry + 1) 11 20, daysFromCivil (ry + 1) 12 5),
    (daysFromCivil (ry + 1) 12 10, daysFromCivil (ry + 2) 1 10),
    (daysFromCivil (ry + 1) 2 8, daysFromCivil (ry + 1) 2 18) ]

/-- The overlap test of the search loop: a candidate window starting at
`start` of length `dur` conflicts with the period `p` when
`candidate_start <= avoid_end and candidate_end >= avoid_start`
(`candidate_end = start + dur`). -/
def conflictsWith (start dur : ℤ) (p : ℤ × ℤ) : Bool :=
  decide (start ≤ p.2) && decide (p.1 ≤ start + dur)

/-- The `while suggestion_count < num_suggestions and days_searched < 365`
loop of `suggest_optimal_start_dates`, with `fuel` counting the remaining
weekly steps (the loop body runs for `days_searched = 0, 7, …, 364`,
i.e. at most 53 times, so the search starts with fuel 53).  Accepted
start dates are accumulated in reverse. -/
def suggestGo (dur : ℤ) (periods : List (ℤ × ℤ)) (numSuggestions : ℕ) :
    ℕ → ℤ → ℕ → List ℤ → List ℤ
  | 0, _, _, acc => acc.reverse
  | fuel + 1, cand, cnt, acc =>
      if cnt < numSuggestions then
        if periods.all (fun p => !conflictsWith cand dur p) then
          suggestGo dur periods numSuggestions fuel (cand + 7) (cnt + 1) (cand :: acc)
        else
          suggestGo dur periods numSuggestions fuel (cand + 7) cnt acc
      else acc.reverse

/-- `suggest_optimal_start_dates(duration_days, …, num_suggestions,
reference_date)`, with the reference date given as a civil date
`ry-rm-rd` (the code reads `ref_year = current_date.year` to anchor the
avoid periods).  Returns the accepted start dates in search order; the
human-readable reason labels attached by `_get_suggestion_reason` are
not modelled. -/
def suggest_optimal_start_dates (duration_days : ℤ) (ry rm rd : ℤ)
    (num_suggestions : ℕ) : List ℤ :=
  let refN := daysFromCivil ry rm rd
  suggestGo duration_days (avoidPeriods ry) num_suggestions 53 (nextMonday refN) 0 []

/-! ## Duration planning -/

/-- Result dictionary of `calculate_experiment_duration`. -/
structure DurationPlan where
  required_sample_per_variant : ℤ
  target_sample_per_variant : ℤ
  daily_eligible_users : ℤ
  daily_users_per_variant : ℤ
  base_duration_days : ℤ
  variability_adjusted_days : ℤ
  final_duration_days : ℤ
  final_duration_weeks : ℝ
  safety_buffer_applied : ℝ
  traffic_variability_considered : ℝ

/-- `calculate_experiment_duration(required_sample_size,
daily_eligible_users, allocation_per_variant=0.5, safety_buffer=1.1,
traffic_variability=0.2)`.  The Python body divides by
`daily_users_per_variant`, raising `ZeroDivisionError` when that is 0;
here the check is made explicit before the division.  `round(x, 1)`
(banker's rounding) is modelled by `round (10*x) / 10`; on the reachable
values `final_duration_days / 7` a tie can never occur, so half-even and
half-up rounding agree. -/
noncomputable def calculate_experiment_duration (required_sample_size : ℤ)
    (daily_eligible_users : ℤ) (allocation_per_variant : ℝ)
    (safety_buffer : ℝ) (traffic_variability : ℝ) :
    Except PAError DurationPlan :=
  let target_sample_size : ℤ := pyTrunc ((required_sample_size : ℝ) * safety_buffer)
  let daily_users_per_variant : ℤ := pyTrunc ((daily_eligible_users : ℝ) * allocation_per_variant)
  if daily_users_per_variant = 0 then .error .divisionInvalid
  else
    let base_duration_days : ℤ := ⌈(target_sample_size : ℝ) / (daily_users_per_variant : ℝ)⌉
    let variability_buffer : ℝ := 1 + traffic_variability * (1 / 2)
    let adjusted_duration_days : ℤ := pyTrunc ((base_duration_days : ℝ) * variability_buffer)
    let final_duration_days : ℤ := max adjusted_duration_days 14
    .ok { required_sample_per_variant := required_sample_size
          target_sample_per_variant := target_sample_size
          daily_eligible_users := daily_eligible_users
          daily_users_per_variant := daily_users_per_variant
          base_duration_days := base_duration_days
          variability_adjusted_days := adjusted_duration_days
          final_duration_days := final_duration_days
          final_duration_weeks := round ((final_duration_days : ℝ) / 7 * 10) / 10
          safety_buffer_applied := safety_buffer
          traffic_variability_considered := traffic_variability }

/-! ## Feasibility decision (steps 4–6 of `assess_experiment_feasibility`) -/

/-- Outcome of the feasibility decision. -/
structure FeasibilityDecision where
  feasibility_status : FeasibilityStatus
  final_duration : ℤ
  feasibility_reasons : List Reason
  suggested_start_dates : List ℤ

/-- Steps 4–6 of `assess_experiment_feasibility`: the duration-constraint
check against the config's business minimum/maximum days, the traffic
and statistical-assumption downgrades, and the calendar search (run only
for FEASIBLE or MARGINAL). -/
def feasibilityDecision (required_duration min_duration max_duration : ℤ)
    (avg_daily_eligible_users : ℤ) (assumptions_met : Bool)
    (ry rm rd : ℤ) : FeasibilityDecision :=
  let s1 : FeasibilityStatus × ℤ × List Reason :=
    if required_duration ≤ max_duration then
      (.FEASIBLE, max required_duration min_duration,
        if required_duration < min_duration then [.extendedToMinimum] else [])
    else
      (.NOT_FEASIBLE, required_duration, [.exceedsMaximum])
  let s2 : FeasibilityStatus × List Reason :=
    if avg_daily_eligible_users < 100 then
      ((if s1.1 = .FEASIBLE then .MARGINAL else s1.1), s1.2.2 ++ [.lowDailyTraffic])
    else (s1.1, s1.2.2)
  let s3 : FeasibilityStatus × List Reason :=
    if assumptions_met = false then
      ((if s2.1 = .FEASIBLE then .MARGINAL else s2.1), s2.2 ++ [.assumptionsViolated])
    else s2
  let dates : List ℤ :=
    if s3.1 = .FEASIBLE ∨ s3.1 = .MARGINAL then
      suggest_optimal_start_dates s1.2.1 ry rm rd 3
    else []
  { feasibility_status := s3.1
    final_duration := s1.2.1
    feasibility_reasons := s3.2
    suggested_start_dates := dates }

/-- The duration plan as the specification's formulas describe it, with
the buffered target truncated downward (`floor`) as the code actually
does — the spec text instead says `ceil`, which theorem
`c4_duration_target_not_ceiled` refutes.  Written from the spec for
comparison with `calculate_experiment_duration`. -/
noncomputable def durationPlanSpec (required daily : ℤ) (alloc sb tv : ℝ) :
    DurationPlan :=
  let target : ℤ := ⌊(required : ℝ) * sb⌋
  let dailyv : ℤ := ⌊(daily : ℝ) * alloc⌋
  let base : ℤ := ⌈(target : ℝ) / (dailyv : ℝ)⌉
  let adjusted : ℤ := ⌊(base : ℝ) * (1 + (1 / 2) * tv)⌋
  let final : ℤ := max adjusted 14
  { required_sample_per_variant := required
    target_sample_per_variant := target
    daily_eligible_users := daily
    daily_users_per_variant := dailyv
    base_duration_days := base
    variability_adjusted_days := adjusted
    final_duration_days := final
    final_duration_weeks := round ((final : ℝ) / 7 * 10) / 10
    safety_buffer_applied := sb
    traffic_variability_considered := tv }

/-- A start date is sound for reference day `refN`, duration `dur` and
period list `ps` when it is a Monday strictly after the reference date
whose window conflicts with none of the periods. -/
def GoodStart (refN dur : ℤ) (ps : List (ℤ × ℤ)) (s : ℤ) : Prop :=
  pyWeekday s = 0 ∧ refN < s ∧ ∀ p ∈ ps, conflictsWith s dur p = false

/-! ## Sample-size calculation (proportion family)

The critical values `z_alpha = stats.norm.ppf(1 - alpha/2)` and
`z_beta = stats.norm.ppf(power)` are taken as explicit real parameters,
since the inverse normal CDF has no closed form. -/

/-- Result dictionary of `_calculate_proportion_sample_size`.  The
`warnings` list holds one message exactly when the normal-approximation
assumptions are not met; only its length is modelled. -/
structure ProportionSampleSize where
  baseline_rate : ℝ
  treatment_rate : ℝ
  absolute_difference : ℝ
  relative_improvement : ℝ
  required_per_variant : ℤ
  total_required : ℤ
  statistical_power : ℝ
  significance_level : ℝ
  allocation_ratio : ℝ
  assumptions_met : Bool
  min_n_for_normal_approx : ℤ
  warningsCount : ℕ

/-- `min_n_for_normal_approx`: rule of thumb np ≥ 5 and n(1-p) ≥ 5 for
both groups. -/
noncomputable def minNForNormalApprox (b t : ℝ) : ℝ :=
  max (max (5 / b) (5 / (1 - b))) (max (5 / t) (5 / (1 - t)))

/-- Equal-allocation branch of `_calculate_proportion_sample_size`
(pooled two-proportion z-test sample size, before rounding). -/
noncomputable def proportionNPerGroupEqual (b e zAlpha zBeta : ℝ) : ℝ :=
  let t := b * (1 + e)
  let pooled_rate := (b + t) / 2
  let pooled_se := Real.sqrt (2 * pooled_rate * (1 - pooled_rate))
  let effect_se := Real.sqrt (b * (1 - b) + t * (1 - t))
  ((zAlpha * pooled_se + zBeta * effect_se) / (t - b)) ^ 2

/-- Unequal-allocation branch of `_calculate_proportion_sample_size`. -/
noncomputable def proportionNPerGroupUnequal (b e zAlpha zBeta ratio : ℝ) : ℝ :=
  let t := b * (1 + e)
  let r := ratio / (1 - ratio)
  let pooled_rate := (b + r * t) / (1 + r)
  let pooled_se := Real.sqrt (pooled_rate * (1 - pooled_rate) * (1 + 1 / r))
  let effect_se := Real.sqrt (b * (1 - b) + t * (1 - t) / r)
  ((zAlpha * pooled_se + zBeta * effect_se) / (t - b)) ^ 2

/-- The `if allocation_ratio == 0.5` dispatch of
`_calculate_proportion_sample_size` (unrounded sample size per group). -/
noncomputable def proportionNPerGroup (b e zAlpha zBeta ratio : ℝ) : ℝ :=
  if ratio = 1 / 2 then proportionNPerGroupEqual b e zAlpha zBeta
  else proportionNPerGroupUnequal b e zAlpha zBeta ratio

open Classical in
/-- `_calculate_proportion_sample_size(baseline_rate, effect_size, power,
alpha, allocation_ratio)`, with the two normal quantiles passed
explicitly.  `n_per_group = int(np.ceil(...))` is `Int.ceil`;
`assumptions_met` compares the rounded count with the real-valued
minimum, as the Python code does. -/
noncomputable def _calculate_proportion_sample_size
    (baseline_rate effect_size power alpha : ℝ) (zAlpha zBeta : ℝ)
    (allocation_ratio : ℝ) : ProportionSampleSize :=
  let treatment_rate := baseline_rate * (1 + effect_size)
  let min_n := minNForNormalApprox baseline_rate treatment_rate
  let n_per_group : ℤ :=
    ⌈proportionNPerGroup baseline_rate effect_size zAlpha zBeta allocation_ratio⌉
  let assumptions_met : Bool := decide (min_n ≤ (n_per_group : ℝ))
  { baseline_rate := baseline_rate
    treatment_rate := treatment_rate
    absolute_difference := treatment_rate - baseline_rate
    relative_improvement := effect_size
    required_per_variant := n_per_group
    total_required := n_per_group * 2
    statistical_power := power
    significance_level := alpha
    allocation_ratio := allocation_ratio
    assumptions_met := assumptions_met
    min_n_for_normal_approx := pyTrunc min_n
    warningsCount := cond assumptions_met 0 1 }

/-- Modelled value of `scipy.stats.norm.ppf(0.975)`, the two-tailed
critical value for `alpha = 0.05`; the true quantile is
1.9599639845400545…, so this rational agrees with it to 8 decimal
places. -/
noncomputable def zAlpha05 : ℝ := 195996398 / 100000000

/-- Modelled value of `scipy.stats.norm.ppf(0.80)`, the critical value
for power 0.80; the true quantile is 0.8416212335729143…, so this
rational agrees with it to 8 decimal places. -/
noncomputable def zBeta80 : ℝ := 84162123 / 100000000

/-! ## Sample-size calculation (count family) -/

/-- The result shape shared by the proportion and continuous families,
specialised to the count family's fields (what
`_calculate_count_sample_size` would have to return). -/
structure CountSampleSize where
  baseline_rate : ℝ
  treatment_rate : ℝ
  required_per_variant : ℤ
  total_required : ℤ
  statistical_power : ℝ
  significance_level : ℝ
  allocation_ratio : ℝ
  assumptions_met : Bool
  warningsCount : ℕ

/-- Equal-allocation Poisson-rate sample size computed (into the local
`n_per_group`) by the body of `_calculate_count_sample_size`. -/
noncomputable def countNPerGroupEqual (b e zAlpha zBeta : ℝ) : ℝ :=
  let t := b * (1 + e)
  ((zAlpha * Real.sqrt (b + t) + zBeta * Real.sqrt (b + t)) / (t - b)) ^ 2

/-- The local `int(np.ceil(n_per_group))` of
`_calculate_count_sample_size` for equal allocation. -/
noncomputable def countRequiredPerVariant (b e zAlpha zBeta : ℝ) : ℤ :=
  ⌈countNPerGroupEqual b e zAlpha zBeta⌉

/-- The local `assumptions_met = baseline_rate >= 5 and treatment_rate >= 5`
of `_calculate_count_sample_size`. -/
def countAssumptionsMet (b e : ℝ) : Prop :=
  5 ≤ b ∧ 5 ≤ b * (1 + e)

/-- Return value of `_calculate_count_sample_size`: the body computes
`treatment_rate`, `n_per_group`, `assumptions_met` and `warnings_list`
(modelled by the definitions above) but ends without a `return`
statement — the function returns `None` for every input. -/
def countSampleSizeReturn (baseline_rate effect_size power alpha : ℝ)
    (allocation_ratio : ℝ) : Option CountSampleSize :=
  none

/-! ## Fallback (mock) traffic estimation (`bigquery_utils.py`) -/

/-- Eligibility criteria as read by `_get_mock_traffic_data` and
`_build_thelook_traffic_query`: `include.countries`,
`include.customer_types`, `exclude.vip_customers`,
`exclude.employee_accounts`, `exclude.test_accounts`.  An absent key is
`none` / `false`. -/
structure EligibilityCriteria where
  include_countries : Option (List String)
  include_customer_types : Option (List String)
  exclude_vip_customers : Bool
  exclude_employee_accounts : Bool
  exclude_test_accounts : Bool

/-- Traffic-analysis result dictionary.  The `analysis_period` field of
the Python dictionary (two wall-clock timestamps) is not modelled; a
weekday pattern entry is (day-of-week, avg users, stddev, days
observed). -/
structure TrafficProfile where
  avg_daily_eligible_users : ℤ
  stddev_daily_eligible_users : ℤ
  min_daily_eligible_users : ℤ
  max_daily_eligible_users : ℤ
  historical_conversion_rate : ℝ
  conversion_rate_variability : ℝ
  historical_aov : ℝ
  days_analyzed : ℤ
  day_of_week_patterns : List (ℤ × ℝ × ℝ × ℤ)
  traffic_variability_coefficient : ℝ
  data_source : String
  query_success : Bool

/-- `_get_mock_traffic_data`: deterministic criteria-sensitive fallback
estimate — base 1000 daily users, `int(base * 0.3)` when at most two
countries are included, `int(base * 0.95)` when VIP customers are
excluded, fixed CV 0.15, empty weekday pattern. -/
noncomputable def _get_mock_traffic_data (c : EligibilityCriteria) : TrafficProfile :=
  let base1 : ℤ := 1000
  let base2 : ℤ :=
    match c.include_countries with
    | some cs => if cs.length ≤ 2 then pyTrunc ((base1 : ℝ) * (3 / 10)) else base1
    | none => base1
  let base : ℤ :=
    if c.exclude_vip_customers then pyTrunc ((base2 : ℝ) * (95 / 100)) else base2
  let traffic_cv : ℝ := 15 / 100
  { avg_daily_eligible_users := base
    stddev_daily_eligible_users := pyTrunc ((base : ℝ) * traffic_cv)
    min_daily_eligible_users := pyTrunc ((base : ℝ) * (7 / 10))
    max_daily_eligible_users := pyTrunc ((base : ℝ) * (14 / 10))
    historical_conversion_rate := 45 / 1000
    conversion_rate_variability := 8 / 1000
    historical_aov := 523 / 10
    days_analyzed := 90
    day_of_week_patterns := []
    traffic_variability_coefficient := traffic_cv
    data_source := "mock_data"
    query_success := false }

/-! ## Orchestrator (`assess_experiment_feasibility`) -/

/-- The fields `assess_experiment_feasibility` reads from the experiment
configuration (`config['power_analysis']`, plus the allocation the
config declares for its variants, which this code path never reads). -/
structure ExperimentConfigInputs where
  baseline_metric_value : ℝ
  effect_magnitude : ℝ
  statistical_power : ℝ
  significance_level : ℝ
  z_alpha : ℝ
  z_beta : ℝ
  safety_buffer : ℝ
  business_minimum_days : ℤ
  business_maximum_days : ℤ
  treatment_allocation : ℝ

/-- The `PowerAnalysisResult` dataclass (fields relevant to the verified
claims; `experiment_name` and `config_version` are pass-through strings
and are not modelled). -/
structure PowerAnalysisResult where
  baseline_rate : ℝ
  treatment_rate : ℝ
  effect_size : ℝ
  required_sample_per_variant : ℤ
  total_required_sample : ℤ
  statistical_power : ℝ
  significance_level : ℝ
  daily_eligible_users : ℤ
  daily_users_per_variant : ℤ
  traffic_variability : ℝ
  required_duration_days : ℤ
  required_duration_weeks : ℝ
  final_planned_duration : ℤ
  feasibility_status : FeasibilityStatus
  feasibility_reasons : List Reason
  suggested_start_dates : List ℤ
  assumptions_met : Bool
  warningsCount : ℕ

open Classical in
/-- `assess_experiment_feasibility` for a proportion-type primary metric:
sample size (with the *default* `allocation_ratio = 0.5`), traffic
profile, duration (with the *default* `allocation_per_variant = 0.5`),
the feasibility decision, and the calendar search.  A
`ZeroDivisionError` from the duration step propagates. -/
noncomputable def assess_experiment_feasibility (cfg : ExperimentConfigInputs)
    (traffic : TrafficProfile) (ry rm rd : ℤ) :
    Except PAError PowerAnalysisResult :=
  let sample := _calculate_proportion_sample_size cfg.baseline_metric_value
    cfg.effect_magnitude cfg.statistical_power cfg.significance_level
    cfg.z_alpha cfg.z_beta (1 / 2)
  let baseline_diff : ℝ :=
    |cfg.baseline_metric_value - traffic.historical_conversion_rate| /
      cfg.baseline_metric_value
  let warningsCount : ℕ :=
    sample.warningsCount + (if 1 / 5 < baseline_diff then 1 else 0)
  match calculate_experiment_duration sample.required_per_variant
      traffic.avg_daily_eligible_users (1 / 2) cfg.safety_buffer
      traffic.traffic_variability_coefficient with
  | .error err => .error err
  | .ok dur =>
    let dec := feasibilityDecision dur.final_duration_days
      cfg.business_minimum_days cfg.business_maximum_days
      traffic.avg_daily_eligible_users sample.assumptions_met ry rm rd
    .ok { baseline_rate := sample.baseline_rate
          treatment_rate := sample.treatment_rate
          effect_size := sample.relative_improvement
          required_sample_per_variant := sample.required_per_variant
          total_required_sample := sample.total_required
          statistical_power := cfg.statistical_power
          significance_level := cfg.significance_level
          daily_eligible_users := traffic.avg_daily_eligible_users
          daily_users_per_variant := dur.daily_users_per_variant
          traffic_variability := traffic.traffic_variability_coefficient
          required_duration_days := dur.final_duration_days
          required_duration_weeks := dur.final_duration_weeks
          final_planned_duration := dec.final_duration
          feasibility_status := dec.feasibility_status
          feasibility_reasons := dec.feasibility_reasons
          suggested_start_dates := dec.suggested_start_dates
          assumptions_met := sample.assumptions_met
          warningsCount := warningsCount }

/-! ## Helper lemmas -/

/-- Lower-bound a square root by a rational: `a ≤ √x` when `a² ≤ x`. -/
lemma sqrt_lb {a x : ℝ} (ha : 0 ≤ a) (h : a ^ 2 ≤ x) : a ≤ Real.sqrt x := by
  calc a = Real.sqrt (a ^ 2) := (Real.sqrt_sq ha).symm
    _ ≤ Real.sqrt x := Real.sqrt_le_sqrt h

/-- Upper-bound a square root by a rational: `√x ≤ a` when `x ≤ a²`. -/
lemma sqrt_ub {a x : ℝ} (ha : 0 ≤ a) (h : x ≤ a ^ 2) : Real.sqrt x ≤ a := by
  calc Real.sqrt x ≤ Real.sqrt (a ^ 2) := Real.sqrt_le_sqrt h
    _ = a := Real.sqrt_sq ha

/-- `pyTrunc` agrees with `Int.floor` on non-negative reals. -/
lemma pyTrunc_eq_floor {x : ℝ} (h : 0 ≤ x) : pyTrunc x = ⌊x⌋ := if_pos h

/-- `nextMonday` lands on a Monday (`weekday = 0`). -/
lemma nextMonday_weekday (n : ℤ) : pyWeekday (nextMonday n) = 0 := by
  simp only [nextMonday, pyWeekday]
  split
  · omega
  · omega

/-- `nextMonday` is strictly after the reference day. -/
lemma lt_nextMonday (n : ℤ) : n < nextMonday n := by
  simp only [nextMonday, pyWeekday]
  split
  · omega
  · omega

/-- Invariant of the weekly search loop: if the candidate is a Monday
strictly after the reference day and every accumulated start is good,
then every start the loop returns is good. -/
lemma suggestGo_sound (dur : ℤ) (ps : List (ℤ × ℤ)) (num : ℕ) (refN : ℤ) :
    ∀ (fuel : ℕ) (cand : ℤ) (cnt : ℕ) (acc : List ℤ),
      pyWeekday cand = 0 → refN < cand →
      (∀ s ∈ acc, GoodStart refN dur ps s) →
      ∀ s ∈ suggestGo dur ps num fuel cand cnt acc, GoodStart refN dur ps s := by
  intro fuel
  induction fuel with
  | zero =>
    intro cand cnt acc _ _ hacc s hs
    simp only [suggestGo, List.mem_reverse] at hs
    exact hacc s hs
  | succ k ih =>
    intro cand cnt acc hmon hgt hacc s hs
    simp only [suggestGo] at hs
    by_cases h1 : cnt < num
    · rw [if_pos h1] at hs
      have hmon7 : pyWeekday (cand + 7) = 0 := by
        simp only [pyWeekday] at hmon ⊢; omega
      have hgt7 : refN < cand + 7 := by omega
      by_cases h2 : (ps.all fun p => !conflictsWith cand dur p) = true
      · rw [if_pos h2] at hs
        refine ih (cand + 7) (cnt + 1) (cand :: acc) hmon7 hgt7 ?_ s hs
        intro t ht
        rcases List.mem_cons.mp ht with rfl | ht
        · refine ⟨hmon, hgt, ?_⟩
          intro p hp
          have := List.all_eq_true.mp h2 p hp
          simpa using this
        · exact hacc t ht
      · rw [if_neg h2] at hs
        exact ih (cand + 7) cnt acc hmon7 hgt7 hacc s hs
    · rw [if_neg h1] at hs
      rw [List.mem_reverse] at hs
      exact hacc s hs

/-! ## C3: calendar suggestions (amended) -/

/-- C3 (amended).  Every start date returned by
`suggest_optimal_start_dates` is a Monday strictly after the reference
date, and its window `[start, start + duration_days]` (inclusive, as the
code checks it) overlaps none of the NINE periods the code declares:
all six seasonal periods of the reference year plus next year's
Thanksgiving/Black-Friday, Christmas/New-Year and Valentine's periods.
The claim's stronger list — all six periods also re-anchored to the
following year — is refuted by `c3_window_overlaps_next_year_easter`. -/
theorem c3_suggest_start_dates_sound (duration_days ry rm rd : ℤ) (num : ℕ)
    (s : ℤ) (hs : s ∈ suggest_optimal_start_dates duration_days ry rm rd num) :
    pyWeekday s = 0 ∧ daysFromCivil ry rm rd < s ∧
      ∀ p ∈ avoidPeriods ry, ¬(s ≤ p.2 ∧ p.1 ≤ s + duration_days) := by
  have h := suggestGo_sound duration_days (avoidPeriods ry) num
    (daysFromCivil ry rm rd) 53 (nextMonday (daysFromCivil ry rm rd)) 0 []
    (nextMonday_weekday _) (lt_nextMonday _) (by intro t ht; cases ht) s hs
  refine ⟨h.1, h.2.1, ?_⟩
  intro p hp
  have hc := h.2.2 p hp
  simp only [conflictsWith, Bool.and_eq_false_iff, decide_eq_false_iff_not] at hc
  rcases hc with hc | hc <;> tauto

/-- C3 witness: the first suggestion for duration 14, reference date
2024-12-15, count 5 is Monday 2025-01-13, strictly after the
reference date. -/
theorem c3_suggest_start_dates_sound_witness :
    pyWeekday (daysFromCivil 2025 1 13) = 0 ∧
      daysFromCivil 2024 12 15 < daysFromCivil 2025 1 13 := by
  have h := c3_suggest_start_dates_sound 14 2024 12 15 5
    (daysFromCivil 2025 1 13) (by decide)
  exact ⟨h.1, h.2.1⟩

/-- C3 counterexample.  With reference date 2024-12-15 (reference year
2024) and duration 14, the search returns the start date 2025-03-10,
whose window overlaps the Easter avoid-period anchored to the FOLLOWING
year (2025-03-20 … 2025-04-10) — one of the six seasonal periods that
the claim says are declared for both the reference year and the next
year, but which the code only anchors to the reference year. -/
theorem c3_window_overlaps_next_year_easter :
    daysFromCivil 2025 3 10 ∈ suggest_optimal_start_dates 14 2024 12 15 5 ∧
      daysFromCivil 2025 3 10 ≤ daysFromCivil 2025 4 10 ∧
      daysFromCivil 2025 3 20 ≤ daysFromCivil 2025 3 10 + 14 - 1 := by
  refine ⟨by decide, by decide, by decide⟩

/-! ## C2: feasibility decision -/

/-- The final duration chosen by the decision step: the required
duration raised to the business minimum when it fits the maximum, the
raw required duration otherwise. -/
lemma feasibilityDecision_final (required minD maxD avg : ℤ) (am : Bool)
    (ry rm rd : ℤ) :
    (feasibilityDecision required minD maxD avg am ry rm rd).final_duration =
      if required ≤ maxD then max required minD else required := by
  simp only [feasibilityDecision]
  split_ifs <;> rfl

/-- The status chosen by the decision step, as a single conditional. -/
lemma feasibilityDecision_status (required minD maxD avg : ℤ) (am : Bool)
    (ry rm rd : ℤ) :
    (feasibilityDecision required minD maxD avg am ry rm rd).feasibility_status =
      if required ≤ maxD then
        (if avg < 100 ∨ am = false then .MARGINAL else .FEASIBLE)
      else .NOT_FEASIBLE := by
  cases am <;> simp only [feasibilityDecision] <;> split_ifs <;> simp_all <;> omega

/-- The min-raise reason is recorded whenever the required duration is
raised to the business minimum. -/
lemma feasibilityDecision_min_reason (required minD maxD avg : ℤ) (am : Bool)
    (ry rm rd : ℤ) (h1 : required ≤ maxD) (h2 : required < minD) :
    Reason.extendedToMinimum ∈
      (feasibilityDecision required minD maxD avg am ry rm rd).feasibility_reasons := by
  cases am <;> simp only [feasibilityDecision] <;> split_ifs <;> simp_all

set_option maxHeartbeats 1000000 in
/-- The calendar search runs with the final duration when the status is
not NOT_FEASIBLE, and is skipped entirely otherwise. -/
lemma feasibilityDecision_dates (required minD maxD avg : ℤ) (am : Bool)
    (ry rm rd : ℤ) :
    (feasibilityDecision required minD maxD avg am ry rm rd).suggested_start_dates =
      if (feasibilityDecision required minD maxD avg am ry rm rd).feasibility_status
          = .NOT_FEASIBLE then []
      else
        suggest_optimal_start_dates
          (feasibilityDecision required minD maxD avg am ry rm rd).final_duration
          ry rm rd 3 := by
  rw [feasibilityDecision_status, feasibilityDecision_final]
  cases am <;> simp only [feasibilityDecision] <;> split_ifs <;> simp_all

/-- C2.  For configurations with `min_duration ≤ max_duration`:
the status is NOT_FEASIBLE exactly when the final duration exceeds the
maximum; FEASIBLE exactly when it fits and there is no downgrade;
MARGINAL exactly when it fits but daily traffic is below 100 or the
statistical assumptions failed; a required duration below the minimum is
raised to the minimum with a recorded reason (and, per the FEASIBLE
characterisation, does not by itself downgrade); and the calendar search
runs — with the final duration — only for FEASIBLE or MARGINAL. -/
theorem c2_feasibility_decision_spec (required minD maxD avg : ℤ) (am : Bool)
    (ry rm rd : ℤ) (hmm : minD ≤ maxD) :
    ((feasibilityDecision required minD maxD avg am ry rm rd).feasibility_status
        = .NOT_FEASIBLE ↔
      maxD < (feasibilityDecision required minD maxD avg am ry rm rd).final_duration) ∧
    ((feasibilityDecision required minD maxD avg am ry rm rd).feasibility_status
        = .FEASIBLE ↔
      (feasibilityDecision required minD maxD avg am ry rm rd).final_duration ≤ maxD ∧
        100 ≤ avg ∧ am = true) ∧
    ((feasibilityDecision required minD maxD avg am ry rm rd).feasibility_status
        = .MARGINAL ↔
      (feasibilityDecision required minD maxD avg am ry rm rd).final_duration ≤ maxD ∧
        (avg < 100 ∨ am = false)) ∧
    (required ≤ maxD → required < minD →
      (feasibilityDecision required minD maxD avg am ry rm rd).final_duration = minD ∧
        Reason.extendedToMinimum ∈
          (feasibilityDecision required minD maxD avg am ry rm rd).feasibility_reasons) ∧
    (required ≤ maxD → minD ≤ required →
      (feasibilityDecision required minD maxD avg am ry rm rd).final_duration = required) ∧
    ((feasibilityDecision required minD maxD avg am ry rm rd).feasibility_status
        = .NOT_FEASIBLE →
      (feasibilityDecision required minD maxD avg am ry rm rd).suggested_start_dates = []) ∧
    ((feasibilityDecision required minD maxD avg am ry rm rd).feasibility_status
        = .FEASIBLE ∨
     (feasibilityDecision required minD maxD avg am ry rm rd).feasibility_status
        = .MARGINAL →
      (feasibilityDecision required minD maxD avg am ry rm rd).suggested_start_dates =
        suggest_optimal_start_dates
          (feasibilityDecision required minD maxD avg am ry rm rd).final_duration
          ry rm rd 3) := by
  have hF := feasibilityDecision_final required minD maxD avg am ry rm rd
  have hS := feasibilityDecision_status required minD maxD avg am ry rm rd
  have hD := feasibilityDecision_dates required minD maxD avg am ry rm rd
  refine ⟨?_, ?_, ?_,
    fun hx hy => ⟨?_, feasibilityDecision_min_reason required minD maxD avg am ry rm rd hx hy⟩,
    fun hx hy => ?_, fun hx => ?_, fun hx => ?_⟩
  · rw [hS, hF]; cases am <;> split_ifs <;> simp_all
  · rw [hS, hF]; cases am <;> split_ifs <;> simp_all
  · rw [hS, hF]; cases am <;> split_ifs <;> simp_all
  · rw [hF, if_pos hx]; omega
  · rw [hF, if_pos hx]; omega
  · rw [hD, if_pos hx]
  · rcases hx with h | h <;> rw [hD, if_neg (by rw [h]; decide)]

/-- C2 witness: a concrete configuration (required 10 days, bounds
14–30, healthy traffic, assumptions met) is FEASIBLE with the duration
raised to the 14-day minimum. -/
theorem c2_feasibility_decision_spec_witness :
    (feasibilityDecision 10 14 30 1000 true 2024 3 1).feasibility_status =
        FeasibilityStatus.FEASIBLE ∧
      (feasibilityDecision 10 14 30 1000 true 2024 3 1).final_duration = 14 := by
  have h := c2_feasibility_decision_spec 10 14 30 1000 true 2024 3 1 (by norm_num)
  exact ⟨h.2.1.mpr ⟨by decide, by decide, rfl⟩, by decide⟩

/-! ## C4, C5, C8: duration planning -/

/-- C4 counterexample.  At `required = 10`, `safety_buffer = 1.25`
(exactly representable, so the float and real computations agree), the
code's buffered target is `int(10 * 1.25) = 12`, whereas the claim's
`ceil(required * safety_buffer)` is 13: the code truncates the buffered
target downward instead of rounding it up. -/
theorem c4_duration_target_not_ceiled :
    (calculate_experiment_duration 10 100 (1 / 2) (5 / 4) 0).map
        (fun p => p.target_sample_per_variant) = .ok 12 ∧
      ⌈(10 : ℝ) * (5 / 4)⌉ = 13 ∧ (12 : ℤ) ≠ 13 := by
  refine ⟨?_, by rw [Int.ceil_eq_iff] <;> norm_num, by norm_num⟩
  have hz : pyTrunc (((100 : ℤ) : ℝ) * (1 / 2)) = 50 := by
    rw [pyTrunc_eq_floor (by norm_num)]; norm_num
  simp only [calculate_experiment_duration, hz]
  norm_num [pyTrunc_eq_floor, Except.map]

/-- C4 (amended).  For non-negative inputs with a non-zero per-variant
daily rate, `calculate_experiment_duration` returns exactly the plan of
the spec's formulas with the buffered target rounded DOWN:
`target = floor(required · safety_buffer)` (not `ceil` as the claim
stated), `daily = floor(daily_eligible · allocation)`,
`base = ceil(target / daily)`,
`adjusted = floor(base · (1 + 0.5 · traffic_variability))`,
`final = max(adjusted, 14)`. -/
theorem c4_duration_formulas (required daily : ℤ) (alloc sb tv : ℝ)
    (hreq : 0 ≤ required) (hsb : 0 ≤ sb) (hdaily : 0 ≤ daily)
    (halloc : 0 ≤ alloc) (htv : 0 ≤ tv)
    (hd : ⌊(daily : ℝ) * alloc⌋ ≠ 0) :
    calculate_experiment_duration required daily alloc sb tv =
      .ok (durationPlanSpec required daily alloc sb tv) := by
  have h1 : (0 : ℝ) ≤ (required : ℝ) * sb :=
    mul_nonneg (by exact_mod_cast hreq) hsb
  have h2 : (0 : ℝ) ≤ (daily : ℝ) * alloc :=
    mul_nonneg (by exact_mod_cast hdaily) halloc
  have h3 : (0 : ℤ) ≤ ⌊(required : ℝ) * sb⌋ := Int.floor_nonneg.mpr h1
  have h4 : (0 : ℤ) ≤ ⌊(daily : ℝ) * alloc⌋ := Int.floor_nonneg.mpr h2
  have hbase : (0 : ℤ) ≤
      ⌈(⌊(required : ℝ) * sb⌋ : ℝ) / (⌊(daily : ℝ) * alloc⌋ : ℝ)⌉ :=
    Int.ceil_nonneg (div_nonneg (by exact_mod_cast h3) (by exact_mod_cast h4))
  have h5 : (0 : ℝ) ≤
      ((⌈(⌊(required : ℝ) * sb⌋ : ℝ) / (⌊(daily : ℝ) * alloc⌋ : ℝ)⌉ : ℤ) : ℝ) *
        (1 + tv * (1 / 2)) :=
    mul_nonneg (by exact_mod_cast hbase) (by linarith)
  simp only [calculate_experiment_duration, durationPlanSpec,
    pyTrunc_eq_floor h1, pyTrunc_eq_floor h2]
  rw [if_neg hd, pyTrunc_eq_floor h5]
  have harg : (1 + tv * (1 / 2) : ℝ) = 1 + (1 / 2) * tv := by ring
  rw [harg]

/-- C4 witness: the concrete instance required = 100, 1000 daily users,
allocation ½, buffer 1.1, variability 0.2. -/
theorem c4_duration_formulas_witness :
    calculate_experiment_duration 100 1000 (1 / 2) (11 / 10) (1 / 5) =
      .ok (durationPlanSpec 100 1000 (1 / 2) (11 / 10) (1 / 5)) :=
  c4_duration_formulas 100 1000 (1 / 2) (11 / 10) (1 / 5)
    (by norm_num) (by norm_num) (by norm_num) (by norm_num) (by norm_num)
    (by norm_num)

/-- Concrete evaluation of the duration planner, shared by witnesses:
100 required, 1000 daily eligible, allocation ½, buffer 1.1,
variability 0.2 gives the plan of the spec formulas at those inputs. -/
lemma duration_example_eval :
    calculate_experiment_duration 100 1000 (1 / 2) (11 / 10) (1 / 5) =
      .ok (durationPlanSpec 100 1000 (1 / 2) (11 / 10) (1 / 5)) := by
  have h2 : pyTrunc (((1000 : ℤ) : ℝ) * (1 / 2)) = 500 := by
    rw [pyTrunc_eq_floor (by norm_num)]; norm_num
  simp only [calculate_experiment_duration, durationPlanSpec, h2]
  norm_num [pyTrunc_eq_floor]

/-- C5.  Whatever plan `calculate_experiment_duration` returns, the
final duration is at least the 14-day floor and at least the
variability-adjusted duration. -/
theorem c5_final_duration_bounds (required daily : ℤ) (alloc sb tv : ℝ)
    (plan : DurationPlan)
    (h : calculate_experiment_duration required daily alloc sb tv = .ok plan) :
    14 ≤ plan.final_duration_days ∧
      plan.variability_adjusted_days ≤ plan.final_duration_days := by
  unfold calculate_experiment_duration at h
  by_cases hz : pyTrunc ((daily : ℝ) * alloc) = 0
  · rw [if_pos hz] at h; exact absurd h (by simp)
  · rw [if_neg hz] at h
    obtain rfl := (Except.ok.inj h).symm
    exact ⟨le_max_right _ _, le_max_left _ _⟩

/-- C5 witness: the concrete plan for 100 required / 1000 daily users
has final duration 14 ≥ 14 and ≥ its adjusted duration. -/
theorem c5_final_duration_bounds_witness :
    14 ≤ (durationPlanSpec 100 1000 (1 / 2) (11 / 10) (1 / 5)).final_duration_days ∧
      (durationPlanSpec 100 1000 (1 / 2) (11 / 10) (1 / 5)).variability_adjusted_days ≤
        (durationPlanSpec 100 1000 (1 / 2) (11 / 10) (1 / 5)).final_duration_days :=
  c5_final_duration_bounds 100 1000 (1 / 2) (11 / 10) (1 / 5) _ duration_example_eval

/-- C8.  `calculate_experiment_duration` fails — with the division
error specifically, never any other error — exactly when the computed
per-variant daily rate `int(daily_eligible_users · allocation)` is zero,
and returns a plan for every other input. -/
theorem c8_division_error_iff (required daily : ℤ) (alloc sb tv : ℝ) :
    (calculate_experiment_duration required daily alloc sb tv =
        .error .divisionInvalid ↔ pyTrunc ((daily : ℝ) * alloc) = 0) ∧
    (∀ err, calculate_experiment_duration required daily alloc sb tv = .error err →
      err = .divisionInvalid) ∧
    (pyTrunc ((daily : ℝ) * alloc) ≠ 0 →
      ∃ plan, calculate_experiment_duration required daily alloc sb tv = .ok plan) := by
  unfold calculate_experiment_duration
  by_cases hz : pyTrunc ((daily : ℝ) * alloc) = 0
  · rw [if_pos hz]
    refine ⟨by simp [hz], ?_, by simp [hz]⟩
    intro err herr
    exact (Except.error.inj herr).symm
  · rw [if_neg hz]
    exact ⟨by simp [hz], by simp, fun _ => ⟨_, rfl⟩⟩

/-- C8 witness: zero eligible users trigger the division error; 1000
eligible users at allocation ½ do not. -/
theorem c8_division_error_iff_witness :
    calculate_experiment_duration 100 0 (1 / 2) (11 / 10) (1 / 5) =
        .error .divisionInvalid ∧
      calculate_experiment_duration 100 1000 (1 / 2) (11 / 10) (1 / 5) ≠
        Except.error PAError.divisionInvalid := by
  constructor
  · refine (c8_division_error_iff 100 0 (1 / 2) (11 / 10) (1 / 5)).1.mpr ?_
    rw [pyTrunc_eq_floor (by norm_num)]; norm_num
  · intro hcon
    have h := (c8_division_error_iff 100 1000 (1 / 2) (11 / 10) (1 / 5)).1.mp hcon
    rw [pyTrunc_eq_floor (by norm_num)] at h
    norm_num at h

/-! ## C9: fallback traffic estimate -/

/-- C9.  The fallback estimate is a pure function of the criteria:
average daily users is 1000, multiplied by 0.3 when at most two
countries are explicitly included and by 0.95 when VIP customers are
excluded (300 = 1000·0.3, 950 = 1000·0.95, 285 = 1000·0.3·0.95, all
exact); the variability coefficient is 0.15 and the weekday pattern is
empty. -/
theorem c9_mock_traffic_spec (c : EligibilityCriteria) :
    ((_get_mock_traffic_data c).avg_daily_eligible_users =
      match c.include_countries with
      | some cs =>
          if cs.length ≤ 2 then (if c.exclude_vip_customers then 285 else 300)
          else (if c.exclude_vip_customers then 950 else 1000)
      | none => if c.exclude_vip_customers then 950 else 1000) ∧
    ((300 : ℝ) = 1000 * (3 / 10)) ∧
    ((950 : ℝ) = 1000 * (95 / 100)) ∧
    ((285 : ℝ) = 1000 * (3 / 10) * (95 / 100)) ∧
    (_get_mock_traffic_data c).traffic_variability_coefficient = 15 / 100 ∧
    (_get_mock_traffic_data c).day_of_week_patterns = [] := by
  have ha : pyTrunc ((1000 : ℝ) * (3 / 10)) = 300 := by
    rw [pyTrunc_eq_floor (by norm_num)]
    norm_num
  have hb : pyTrunc ((300 : ℝ) * (95 / 100)) = 285 := by
    rw [pyTrunc_eq_floor (by norm_num)]
    norm_num
  have hc : pyTrunc ((1000 : ℝ) * (95 / 100)) = 950 := by
    rw [pyTrunc_eq_floor (by norm_num)]
    norm_num
  obtain ⟨cs, ct, vip, emp, tst⟩ := c
  refine ⟨?_, by norm_num, by norm_num, by norm_num, rfl, rfl⟩
  cases cs with
  | none => cases vip <;> simp [_get_mock_traffic_data, hc]
  | some l =>
    by_cases hl : l.length ≤ 2 <;> cases vip <;>
      simp [_get_mock_traffic_data, hl, ha, hb, hc]

/-! ## C10: orchestrator uses default allocations -/

/-- C10.  The orchestrator calls the sample-size calculator and the
duration planner with the default allocation 0.5: its result is
independent of whatever allocation the config declares for its
variants, and at ratio ½ the proportion calculator takes the
equal-allocation branch, so the unequal-allocation formulas are
unreachable from `assess_experiment_feasibility`. -/
theorem c10_default_allocation :
    (∀ (cfg : ExperimentConfigInputs) (a : ℝ) (traffic : TrafficProfile)
        (ry rm rd : ℤ),
      assess_experiment_feasibility { cfg with treatment_allocation := a }
          traffic ry rm rd =
        assess_experiment_feasibility cfg traffic ry rm rd) ∧
    (∀ b e zA zB : ℝ,
      proportionNPerGroup b e zA zB (1 / 2) = proportionNPerGroupEqual b e zA zB) := by
  constructor
  · intro cfg a traffic ry rm rd
    cases cfg
    rfl
  · intro b e zA zB
    simp [proportionNPerGroup]

/-! ## C1: count family drops its result -/

/-- C1 (code bug).  `_calculate_count_sample_size` returns `None` for
every input because its body never reaches a `return` statement, even
though it computes the full count-family result: at baseline 10,
effect 0.2 (z-values 2 and 1) the body's `n_per_group` is
`ceil(((2·√22 + 1·√22)/2)²) = ceil(49.5) = 50`, a perfectly good
positive sample size that the function then discards. -/
theorem c1_count_family_returns_none :
    (∀ b e p a r : ℝ, countSampleSizeReturn b e p a r = none) ∧
      countRequiredPerVariant 10 (1 / 5) 2 1 = 50 := by
  refine ⟨fun _ _ _ _ _ => rfl, ?_⟩
  have hs : Real.sqrt 22 ^ 2 = 22 := Real.sq_sqrt (by norm_num)
  have hnn : 0 ≤ Real.sqrt 22 := Real.sqrt_nonneg 22
  simp only [countRequiredPerVariant, countNPerGroupEqual]
  have harg : (10 : ℝ) + 10 * (1 + 1 / 5) = 22 := by norm_num
  rw [harg]
  have hval : ((2 * Real.sqrt 22 + 1 * Real.sqrt 22) / (10 * (1 + 1 / 5) - 10)) ^ 2
      = 99 / 2 := by
    have hden : (10 : ℝ) * (1 + 1 / 5) - 10 = 2 := by norm_num
    rw [hden]
    nlinarith [hs]
  rw [hval]
  rw [Int.ceil_eq_iff] <;> norm_num

/-! ## C7: effect-size monotonicity of the proportion family -/

/-- Compare products with square roots by comparing the squares. -/
lemma mul_sqrt_lt_mul_sqrt {e1 e2 F1 F2 : ℝ} (he1 : 0 ≤ e1) (he2 : 0 ≤ e2)
    (hF1 : 0 ≤ F1) (hF2 : 0 ≤ F2) (h : e1 ^ 2 * F2 < e2 ^ 2 * F1) :
    e1 * Real.sqrt F2 < e2 * Real.sqrt F1 := by
  have h1 : (e1 * Real.sqrt F2) ^ 2 = e1 ^ 2 * F2 := by
    rw [mul_pow, Real.sq_sqrt hF2]
  have h2 : (e2 * Real.sqrt F1) ^ 2 = e2 ^ 2 * F1 := by
    rw [mul_pow, Real.sq_sqrt hF1]
  have hb : 0 ≤ e2 * Real.sqrt F1 := mul_nonneg he2 (Real.sqrt_nonneg _)
  refine lt_of_pow_lt_pow_left₀ 2 hb ?_
  rw [h1, h2]
  exact h

/-- The pooled-variance expression of the equal-allocation branch is
positive when both rates lie in (0,1). -/
lemma pooled_pos (b e : ℝ) (hb : 0 < b) (he : 0 < e) (ht : b * (1 + e) < 1) :
    0 < 2 * ((b + b * (1 + e)) / 2) * (1 - (b + b * (1 + e)) / 2) := by
  have hbe : 0 < b * e := mul_pos hb he
  have h1 : 0 < (b + b * (1 + e)) / 2 := by nlinarith
  have h2 : 0 < 1 - (b + b * (1 + e)) / 2 := by nlinarith
  nlinarith [mul_pos h1 h2]

/-- The effect-variance expression of the equal-allocation branch is
positive when both rates lie in (0,1). -/
lemma effect_se_pos (b e : ℝ) (hb : 0 < b) (he : 0 < e) (ht : b * (1 + e) < 1) :
    0 < b * (1 - b) + b * (1 + e) * (1 - b * (1 + e)) := by
  have hbe : 0 < b * e := mul_pos hb he
  have hb1 : b < 1 := by nlinarith
  have ht0 : 0 < b * (1 + e) := by nlinarith
  have h1 : 0 < b * (1 - b) := by nlinarith
  have h2 : 0 < b * (1 + e) * (1 - b * (1 + e)) := mul_pos ht0 (by nlinarith)
  linarith

/-- The unrounded equal-allocation proportion sample size is positive
whenever the baseline and treatment rates lie in (0,1) and the critical
values are positive. -/
lemma proportionNPerGroupEqual_pos (b e zA zB : ℝ) (hb : 0 < b)
    (ht : b * (1 + e) < 1) (he : 0 < e) (hzA : 0 < zA) (hzB : 0 ≤ zB) :
    0 < proportionNPerGroupEqual b e zA zB := by
  simp only [proportionNPerGroupEqual]
  have hA := pooled_pos b e hb he ht
  have hB := (effect_se_pos b e hb he ht).le
  have hbe : 0 < b * e := mul_pos hb he
  have hδ : 0 < b * (1 + e) - b := by nlinarith
  have hsA : 0 < Real.sqrt (2 * ((b + b * (1 + e)) / 2) * (1 - (b + b * (1 + e)) / 2)) :=
    Real.sqrt_pos.mpr hA
  have hsB : 0 ≤ Real.sqrt (b * (1 - b) + b * (1 + e) * (1 - b * (1 + e))) :=
    Real.sqrt_nonneg _
  have hnum : 0 < zA * Real.sqrt (2 * ((b + b * (1 + e)) / 2) * (1 - (b + b * (1 + e)) / 2))
      + zB * Real.sqrt (b * (1 - b) + b * (1 + e) * (1 - b * (1 + e))) := by
    nlinarith
  exact pow_pos (div_pos hnum hδ) 2

set_option maxHeartbeats 1600000 in
/-- Strict anti-monotonicity in the effect size of the unrounded
equal-allocation proportion sample size: a larger relative effect
(keeping the treatment rate below 1) needs strictly fewer subjects. -/
lemma proportionNPerGroupEqual_strictAnti (b e1 e2 zA zB : ℝ)
    (hb : 0 < b) (he1 : 0 < e1) (h12 : e1 < e2) (ht2 : b * (1 + e2) < 1)
    (hzA : 0 < zA) (hzB : 0 < zB) :
    proportionNPerGroupEqual b e2 zA zB < proportionNPerGroupEqual b e1 zA zB := by
  have he2 : 0 < e2 := he1.trans h12
  have hb1 : b < 1 := by nlinarith
  have ht1 : b * (1 + e1) < 1 := by nlinarith
  simp only [proportionNPerGroupEqual]
  set A1 := 2 * ((b + b * (1 + e1)) / 2) * (1 - (b + b * (1 + e1)) / 2) with hA1def
  set A2 := 2 * ((b + b * (1 + e2)) / 2) * (1 - (b + b * (1 + e2)) / 2) with hA2def
  set B1 := b * (1 - b) + b * (1 + e1) * (1 - b * (1 + e1)) with hB1def
  set B2 := b * (1 - b) + b * (1 + e2) * (1 - b * (1 + e2)) with hB2def
  have hA1 : 0 < A1 := by rw [hA1def]; exact pooled_pos b e1 hb he1 ht1
  have hA2 : 0 < A2 := by rw [hA2def]; exact pooled_pos b e2 hb he2 ht2
  have hB1 : 0 < B1 := by rw [hB1def]; exact effect_se_pos b e1 hb he1 ht1
  have hB2 : 0 < B2 := by rw [hB2def]; exact effect_se_pos b e2 hb he2 ht2
  have hbe1 : 0 < b * e1 := mul_pos hb he1
  have hbe2 : 0 < b * e2 := mul_pos hb he2
  have hδ1 : 0 < b * (1 + e1) - b := by nlinarith
  have hδ2 : 0 < b * (1 + e2) - b := by nlinarith
  have hbr : 0 < (2 * b - 2 * b ^ 2) * (e1 + e2) + (b - 2 * b ^ 2) * (e1 * e2) := by
    nlinarith [mul_pos (mul_pos hb he1) (show 0 < 1 - b - b * e2 by nlinarith),
      mul_pos (mul_pos hb (show 0 < 1 - b by linarith)) he2,
      mul_pos hb (mul_pos he1 he2)]
  have hcrossA : e1 ^ 2 * A2 < e2 ^ 2 * A1 := by
    rw [hA1def, hA2def]
    nlinarith [mul_pos (show 0 < e2 - e1 by linarith) hbr]
  have hcrossB : e1 ^ 2 * B2 < e2 ^ 2 * B1 := by
    rw [hB1def, hB2def]
    nlinarith [mul_pos (show 0 < e2 - e1 by linarith) hbr]
  have hkA : e1 * Real.sqrt A2 < e2 * Real.sqrt A1 :=
    mul_sqrt_lt_mul_sqrt he1.le he2.le hA1.le hA2.le hcrossA
  have hkB : e1 * Real.sqrt B2 < e2 * Real.sqrt B1 :=
    mul_sqrt_lt_mul_sqrt he1.le he2.le hB1.le hB2.le hcrossB
  have hnum2 : 0 < zA * Real.sqrt A2 + zB * Real.sqrt B2 := by
    have := Real.sqrt_pos.mpr hA2
    have := Real.sqrt_nonneg B2
    nlinarith
  have hmulA := mul_lt_mul_of_pos_left hkA (mul_pos hzA hb)
  have hmulB := mul_lt_mul_of_pos_left hkB (mul_pos hzB hb)
  have hfrac : (zA * Real.sqrt A2 + zB * Real.sqrt B2) / (b * (1 + e2) - b) <
      (zA * Real.sqrt A1 + zB * Real.sqrt B1) / (b * (1 + e1) - b) := by
    rw [div_lt_div_iff₀ hδ2 hδ1]
    nlinarith [hmulA, hmulB, mul_pos hzA hb, mul_pos hzB hb]
  have hfrac0 : 0 ≤ (zA * Real.sqrt A2 + zB * Real.sqrt B2) / (b * (1 + e2) - b) :=
    le_of_lt (div_pos hnum2 hδ2)
  exact pow_lt_pow_left₀ hfrac hfrac0 two_ne_zero

/-- Equal-allocation dispatch of the rounded required count. -/
lemma required_per_variant_eq (b e power alpha zA zB : ℝ) :
    (_calculate_proportion_sample_size b e power alpha zA zB (1 / 2)).required_per_variant
      = ⌈proportionNPerGroupEqual b e zA zB⌉ := by
  simp only [_calculate_proportion_sample_size, proportionNPerGroup, if_pos]

/-- C7 (amended).  For baselines in (0,1) and effect sizes
0 < e1 < e2 with both treatment rates in (0,1) and positive critical
values: the required count per variant is a positive integer for both
effect sizes, the UNROUNDED sample size at e2 is strictly smaller than
at e1, and hence the rounded `required_per_variant` at e2 is at most —
but, by `c7_equal_ceil_at_close_effects`, not always strictly smaller
than — the one at e1. -/
theorem c7_effect_size_monotone (b e1 e2 power alpha zA zB : ℝ)
    (hb : 0 < b) (he1 : 0 < e1) (h12 : e1 < e2) (ht2 : b * (1 + e2) < 1)
    (hzA : 0 < zA) (hzB : 0 < zB) :
    0 < (_calculate_proportion_sample_size b e1 power alpha zA zB (1 / 2)).required_per_variant ∧
    0 < (_calculate_proportion_sample_size b e2 power alpha zA zB (1 / 2)).required_per_variant ∧
    proportionNPerGroupEqual b e2 zA zB < proportionNPerGroupEqual b e1 zA zB ∧
    (_calculate_proportion_sample_size b e2 power alpha zA zB (1 / 2)).required_per_variant ≤
      (_calculate_proportion_sample_size b e1 power alpha zA zB (1 / 2)).required_per_variant := by
  have he2 : 0 < e2 := he1.trans h12
  have ht1 : b * (1 + e1) < 1 := by nlinarith
  have hp1 := proportionNPerGroupEqual_pos b e1 zA zB hb ht1 he1 hzA hzB.le
  have hp2 := proportionNPerGroupEqual_pos b e2 zA zB hb ht2 he2 hzA hzB.le
  have hanti := proportionNPerGroupEqual_strictAnti b e1 e2 zA zB hb he1 h12 ht2 hzA hzB
  rw [required_per_variant_eq, required_per_variant_eq]
  refine ⟨?_, ?_, hanti, ?_⟩
  · exact Int.lt_ceil.mpr (by exact_mod_cast hp1)
  · exact Int.lt_ceil.mpr (by exact_mod_cast hp2)
  · exact Int.ceil_le_ceil hanti.le

/-- C7 witness: baseline 0.1, effects 0.4 < 0.5, critical values 2
and 1. -/
theorem c7_effect_size_monotone_witness :
    0 < (_calculate_proportion_sample_size (1 / 10) (2 / 5) (4 / 5) (1 / 20)
        2 1 (1 / 2)).required_per_variant ∧
    0 < (_calculate_proportion_sample_size (1 / 10) (1 / 2) (4 / 5) (1 / 20)
        2 1 (1 / 2)).required_per_variant ∧
    proportionNPerGroupEqual (1 / 10) (1 / 2) 2 1 <
      proportionNPerGroupEqual (1 / 10) (2 / 5) 2 1 ∧
    (_calculate_proportion_sample_size (1 / 10) (1 / 2) (4 / 5) (1 / 20)
        2 1 (1 / 2)).required_per_variant ≤
      (_calculate_proportion_sample_size (1 / 10) (2 / 5) (4 / 5) (1 / 20)
        2 1 (1 / 2)).required_per_variant :=
  c7_effect_size_monotone (1 / 10) (2 / 5) (1 / 2) (4 / 5) (1 / 20) 2 1
    (by norm_num) (by norm_num) (by norm_num) (by norm_num) (by norm_num)
    (by norm_num)

/-- Ceiling of a real in (1186, 1187] is 1187. -/
lemma ceil_eq_1187 {x : ℝ} (h1 : (1186 : ℝ) < x) (h2 : x ≤ 1187) :
    ⌈x⌉ = (1187 : ℤ) := by
  rw [Int.ceil_eq_iff]
  constructor
  · push_cast
    linarith
  · push_cast
    linarith

/-- At baseline 0.1, effect 0.4, critical values 2 and 1 the rounded
required count is 1187 (the unrounded value is ≈1186.50). -/
lemma c7_required_at_effect_04 :
    (_calculate_proportion_sample_size (1 / 10) (2 / 5) (4 / 5) (1 / 20)
      2 1 (1 / 2)).required_per_variant = 1187 := by
  rw [required_per_variant_eq]
  simp only [proportionNPerGroupEqual]
  rw [show (2 * ((1 / 10 + 1 / 10 * (1 + 2 / 5)) / 2) *
        (1 - (1 / 10 + 1 / 10 * (1 + 2 / 5)) / 2) : ℝ) = 132 / 625 by norm_num,
    show ((1 : ℝ) / 10 * (1 - 1 / 10) +
        1 / 10 * (1 + 2 / 5) * (1 - 1 / 10 * (1 + 2 / 5))) = 263 / 1250 by norm_num,
    show ((1 : ℝ) / 10 * (1 + 2 / 5) - 1 / 10) = 1 / 25 by norm_num]
  have hsq1 : Real.sqrt (132 / 625) ^ 2 = 132 / 625 := Real.sq_sqrt (by norm_num)
  have hsq2 : Real.sqrt (263 / 1250) ^ 2 = 263 / 1250 := Real.sq_sqrt (by norm_num)
  have s1l : (45956 / 100000 : ℝ) ≤ Real.sqrt (132 / 625) :=
    sqrt_lb (by norm_num) (by norm_num)
  have s1u : Real.sqrt (132 / 625) ≤ 45957 / 100000 :=
    sqrt_ub (by norm_num) (by norm_num)
  have s2l : (45869 / 100000 : ℝ) ≤ Real.sqrt (263 / 1250) :=
    sqrt_lb (by norm_num) (by norm_num)
  have s2u : Real.sqrt (263 / 1250) ≤ 4587 / 10000 :=
    sqrt_ub (by norm_num) (by norm_num)
  have hABl : (45956 / 100000 : ℝ) * (45869 / 100000) ≤
      Real.sqrt (132 / 625) * Real.sqrt (263 / 1250) :=
    mul_le_mul s1l s2l (by norm_num) (Real.sqrt_nonneg _)
  have hABu : Real.sqrt (132 / 625) * Real.sqrt (263 / 1250) ≤
      (45957 / 100000 : ℝ) * (4587 / 10000) :=
    mul_le_mul s1u s2u (Real.sqrt_nonneg _) (by norm_num)
  have hx : ((2 * Real.sqrt (132 / 625) + 1 * Real.sqrt (263 / 1250)) / (1 / 25) : ℝ) ^ 2
      = 625 * (4 * Real.sqrt (132 / 625) ^ 2 +
          4 * (Real.sqrt (132 / 625) * Real.sqrt (263 / 1250)) +
          Real.sqrt (263 / 1250) ^ 2) := by ring
  rw [hx, hsq1, hsq2]
  apply ceil_eq_1187
  · linarith
  · linarith

/-- At baseline 0.1, effect 0.40001, critical values 2 and 1 the rounded
required count is also 1187 (the unrounded value is ≈1186.44). -/
lemma c7_required_at_effect_040001 :
    (_calculate_proportion_sample_size (1 / 10) (40001 / 100000) (4 / 5) (1 / 20)
      2 1 (1 / 2)).required_per_variant = 1187 := by
  rw [required_per_variant_eq]
  simp only [proportionNPerGroupEqual]
  rw [show (2 * ((1 / 10 + 1 / 10 * (1 + 40001 / 100000)) / 2) *
        (1 - (1 / 10 + 1 / 10 * (1 + 40001 / 100000)) / 2) : ℝ) =
        422401519999 / 2000000000000 by norm_num,
    show ((1 : ℝ) / 10 * (1 - 1 / 10) +
        1 / 10 * (1 + 40001 / 100000) * (1 - 1 / 10 * (1 + 40001 / 100000))) =
        210400719999 / 1000000000000 by norm_num,
    show ((1 : ℝ) / 10 * (1 + 40001 / 100000) - 1 / 10) = 40001 / 1000000 by norm_num]
  have hsq1 : Real.sqrt (422401519999 / 2000000000000) ^ 2 =
      422401519999 / 2000000000000 := Real.sq_sqrt (by norm_num)
  have hsq2 : Real.sqrt (210400719999 / 1000000000000) ^ 2 =
      210400719999 / 1000000000000 := Real.sq_sqrt (by norm_num)
  have s1l : (45956 / 100000 : ℝ) ≤ Real.sqrt (422401519999 / 2000000000000) :=
    sqrt_lb (by norm_num) (by norm_num)
  have s1u : Real.sqrt (422401519999 / 2000000000000) ≤ 45957 / 100000 :=
    sqrt_ub (by norm_num) (by norm_num)
  have s2l : (45869 / 100000 : ℝ) ≤ Real.sqrt (210400719999 / 1000000000000) :=
    sqrt_lb (by norm_num) (by norm_num)
  have s2u : Real.sqrt (210400719999 / 1000000000000) ≤ 4587 / 10000 :=
    sqrt_ub (by norm_num) (by norm_num)
  have hABl : (45956 / 100000 : ℝ) * (45869 / 100000) ≤
      Real.sqrt (422401519999 / 2000000000000) *
        Real.sqrt (210400719999 / 1000000000000) :=
    mul_le_mul s1l s2l (by norm_num) (Real.sqrt_nonneg _)
  have hABu : Real.sqrt (422401519999 / 2000000000000) *
      Real.sqrt (210400719999 / 1000000000000) ≤
        (45957 / 100000 : ℝ) * (4587 / 10000) :=
    mul_le_mul s1u s2u (Real.sqrt_nonneg _) (by norm_num)
  have hx : ((2 * Real.sqrt (422401519999 / 2000000000000) +
        1 * Real.sqrt (210400719999 / 1000000000000)) / (40001 / 1000000) : ℝ) ^ 2
      = (1000000 / 40001) ^ 2 *
          (4 * Real.sqrt (422401519999 / 2000000000000) ^ 2 +
           4 * (Real.sqrt (422401519999 / 2000000000000) *
                Real.sqrt (210400719999 / 1000000000000)) +
           Real.sqrt (210400719999 / 1000000000000) ^ 2) := by ring
  rw [hx, hsq1, hsq2]
  apply ceil_eq_1187
  · nlinarith [hABl]
  · nlinarith [hABu, hABl]

/-- C7 counterexample.  The effect sizes 0.4 < 0.40001 (baseline 0.1,
critical values 2 and 1) give the SAME rounded `required_per_variant`
(1187 in both cases): increasing the effect size strictly decreases the
unrounded sample size but not always the integer the function
returns. -/
theorem c7_equal_ceil_at_close_effects :
    ((2 : ℝ) / 5 < 40001 / 100000) ∧
    (_calculate_proportion_sample_size (1 / 10) (2 / 5) (4 / 5) (1 / 20)
        2 1 (1 / 2)).required_per_variant = 1187 ∧
    (_calculate_proportion_sample_size (1 / 10) (40001 / 100000) (4 / 5) (1 / 20)
        2 1 (1 / 2)).required_per_variant = 1187 ∧
    ¬((_calculate_proportion_sample_size (1 / 10) (40001 / 100000) (4 / 5) (1 / 20)
        2 1 (1 / 2)).required_per_variant <
      (_calculate_proportion_sample_size (1 / 10) (2 / 5) (4 / 5) (1 / 20)
        2 1 (1 / 2)).required_per_variant) := by
  refine ⟨by norm_num, c7_required_at_effect_04, c7_required_at_effect_040001, ?_⟩
  rw [c7_required_at_effect_04, c7_required_at_effect_040001]
  exact lt_irrefl 1187

/-! ## C6: the concrete scenario -/

/-- Bounds on the unrounded sample size of the concrete scenario
baseline 0.045, effect 0.15, for any critical values in tight intervals
around Φ⁻¹(0.975) ≈ 1.95996 and Φ⁻¹(0.80) ≈ 0.84162: the value lies
strictly above 15500 (so OUTSIDE the claimed 14,000–15,500 band) and at
most 16000. -/
lemma c6_nPerGroup_bounds (zA zB : ℝ) (h1 : 19599 / 10000 ≤ zA)
    (h2 : zA ≤ 196 / 100) (h3 : 8416 / 10000 ≤ zB) (h4 : zB ≤ 8417 / 10000) :
    15500 < proportionNPerGroupEqual (9 / 200) (3 / 20) zA zB ∧
      proportionNPerGroupEqual (9 / 200) (3 / 20) zA zB ≤ 16000 := by
  simp only [proportionNPerGroupEqual]
  rw [show (2 * ((9 / 200 + 9 / 200 * (1 + 3 / 20)) / 2) *
        (1 - (9 / 200 + 9 / 200 * (1 + 3 / 20)) / 2) : ℝ) =
        2946231 / 32000000 by norm_num,
    show ((9 : ℝ) / 200 * (1 - 9 / 200) +
        9 / 200 * (1 + 3 / 20) * (1 - 9 / 200 * (1 + 3 / 20))) =
        1472751 / 16000000 by norm_num,
    show ((9 : ℝ) / 200 * (1 + 3 / 20) - 9 / 200) = 27 / 4000 by norm_num]
  have s1l : (30342 / 100000 : ℝ) ≤ Real.sqrt (2946231 / 32000000) :=
    sqrt_lb (by norm_num) (by norm_num)
  have s1u : Real.sqrt (2946231 / 32000000) ≤ 30343 / 100000 :=
    sqrt_ub (by norm_num) (by norm_num)
  have s2l : (30338 / 100000 : ℝ) ≤ Real.sqrt (1472751 / 16000000) :=
    sqrt_lb (by norm_num) (by norm_num)
  have s2u : Real.sqrt (1472751 / 16000000) ≤ 3034 / 10000 :=
    sqrt_ub (by norm_num) (by norm_num)
  have hzA0 : (0 : ℝ) ≤ zA := by linarith
  have hzB0 : (0 : ℝ) ≤ zB := by linarith
  have hPAl : (19599 / 10000 : ℝ) * (30342 / 100000) ≤
      zA * Real.sqrt (2946231 / 32000000) :=
    mul_le_mul h1 s1l (by norm_num) hzA0
  have hPAu : zA * Real.sqrt (2946231 / 32000000) ≤
      (196 / 100 : ℝ) * (30343 / 100000) :=
    mul_le_mul h2 s1u (Real.sqrt_nonneg _) (by norm_num)
  have hPBl : (8416 / 10000 : ℝ) * (30338 / 100000) ≤
      zB * Real.sqrt (1472751 / 16000000) :=
    mul_le_mul h3 s2l (by norm_num) hzB0
  have hPBu : zB * Real.sqrt (1472751 / 16000000) ≤
      (8417 / 10000 : ℝ) * (3034 / 10000) :=
    mul_le_mul h4 s2u (Real.sqrt_nonneg _) (by norm_num)
  have hx : ((zA * Real.sqrt (2946231 / 32000000) +
        zB * Real.sqrt (1472751 / 16000000)) / (27 / 4000) : ℝ) ^ 2 =
      (16000000 / 729) *
        (zA * Real.sqrt (2946231 / 32000000) +
            zB * Real.sqrt (1472751 / 16000000)) ^ 2 := by ring
  rw [hx]
  constructor
  · nlinarith [hPAl, hPBl,
      sq_nonneg (zA * Real.sqrt (2946231 / 32000000) +
        zB * Real.sqrt (1472751 / 16000000) - 849997466 / 1000000000)]
  · nlinarith [hPAu, hPBu, hPAl, hPBl,
      sq_nonneg (85009458 / 100000000 -
        (zA * Real.sqrt (2946231 / 32000000) +
          zB * Real.sqrt (1472751 / 16000000)))]

/-- C6 counterexample.  At baseline 0.045, effect 0.15, power 0.80,
alpha 0.05 and equal allocation (critical values modelled as the 8-digit
rationals `zAlpha05`, `zBeta80`), `required_per_variant` exceeds 15,500
— the actual value is 15,860 — so it lies outside the claim's
14,000–15,500 band. -/
theorem c6_required_exceeds_band :
    15500 < (_calculate_proportion_sample_size (9 / 200) (3 / 20) (4 / 5) (1 / 20)
      zAlpha05 zBeta80 (1 / 2)).required_per_variant := by
  have hb := c6_nPerGroup_bounds zAlpha05 zBeta80
    (by rw [zAlpha05]; norm_num) (by rw [zAlpha05]; norm_num)
    (by rw [zBeta80]; norm_num) (by rw [zBeta80]; norm_num)
  rw [required_per_variant_eq]
  exact Int.lt_ceil.mpr (by exact_mod_cast hb.1)

/-- C6 (amended).  For the concrete inputs baseline 0.045,
effect 0.15, power 0.80, alpha 0.05 with equal allocation (critical
values anywhere in tight rational intervals containing the true normal
quantiles): the treatment rate is 0.045·1.15, `required_per_variant`
lies between 14,000 and 16,000 (NOT 15,500 as claimed: it is 15,860),
and with 1000 daily eligible users at allocation ½ the duration planner
yields 500 daily users per variant and a final duration of at least 14
days. -/
theorem c6_concrete_scenario (zA zB : ℝ) (h1 : 19599 / 10000 ≤ zA)
    (h2 : zA ≤ 196 / 100) (h3 : 8416 / 10000 ≤ zB) (h4 : zB ≤ 8417 / 10000) :
    (_calculate_proportion_sample_size (9 / 200) (3 / 20) (4 / 5) (1 / 20)
        zA zB (1 / 2)).treatment_rate = 9 / 200 * (1 + 3 / 20) ∧
    14000 ≤ (_calculate_proportion_sample_size (9 / 200) (3 / 20) (4 / 5) (1 / 20)
        zA zB (1 / 2)).required_per_variant ∧
    (_calculate_proportion_sample_size (9 / 200) (3 / 20) (4 / 5) (1 / 20)
        zA zB (1 / 2)).required_per_variant ≤ 16000 ∧
    (∀ (sb tv : ℝ) (plan : DurationPlan),
      calculate_experiment_duration
          ((_calculate_proportion_sample_size (9 / 200) (3 / 20) (4 / 5) (1 / 20)
            zA zB (1 / 2)).required_per_variant) 1000 (1 / 2) sb tv = .ok plan →
      plan.daily_users_per_variant = 500 ∧ 14 ≤ plan.final_duration_days) := by
  have hb := c6_nPerGroup_bounds zA zB h1 h2 h3 h4
  refine ⟨by simp only [_calculate_proportion_sample_size], ?_, ?_, ?_⟩
  · rw [required_per_variant_eq]
    have : (13999 : ℤ) < ⌈proportionNPerGroupEqual (9 / 200) (3 / 20) zA zB⌉ :=
      Int.lt_ceil.mpr (by push_cast; linarith [hb.1])
    omega
  · rw [required_per_variant_eq]
    exact Int.ceil_le.mpr (by push_cast; linarith [hb.2])
  · intro sb tv plan h
    have h500 : pyTrunc (((1000 : ℤ) : ℝ) * (1 / 2)) = 500 := by
      rw [pyTrunc_eq_floor (by norm_num)]
      norm_num
    unfold calculate_experiment_duration at h
    rw [h500] at h
    rw [if_neg (by norm_num)] at h
    obtain rfl := (Except.ok.inj h).symm
    exact ⟨rfl, le_max_right _ _⟩

/-- C6 witness: the modelled quantile values `zAlpha05`, `zBeta80`
satisfy the interval hypotheses; the treatment rate and the amended
sample-size band follow. -/
theorem c6_concrete_scenario_witness :
    (_calculate_proportion_sample_size (9 / 200) (3 / 20) (4 / 5) (1 / 20)
        zAlpha05 zBeta80 (1 / 2)).treatment_rate = 9 / 200 * (1 + 3 / 20) ∧
    14000 ≤ (_calculate_proportion_sample_size (9 / 200) (3 / 20) (4 / 5) (1 / 20)
        zAlpha05 zBeta80 (1 / 2)).required_per_variant ∧
    (_calculate_proportion_sample_size (9 / 200) (3 / 20) (4 / 5) (1 / 20)
        zAlpha05 zBeta80 (1 / 2)).required_per_variant ≤ 16000 := by
  have h := c6_concrete_scenario zAlpha05 zBeta80
    (by rw [zAlpha05]; norm_num) (by rw [zAlpha05]; norm_num)
    (by rw [zBeta80]; norm_num) (by rw [zBeta80]; norm_num)
  exact ⟨h.1, h.2.1, h.2.2.1⟩

end Flit
